import Mathlib

/-!
Verification development for the SIP-Calling softphone control plane.

The definitions below are a shallow embedding of the repository's Python
sources:
  * `sip_client.py` — `MyCall.onCallState`, `MyCall.start_recording`,
    `MyCall.hold`/`resume`/`mute`/`unmute`/`send_dtmf`,
    `MyAccount.onIncomingCall`, `SIPClient.make_call`, `SIPClient.answer_call`,
    `SIPClient.hangup`, `SIPClient.get_call_status`;
  * `legacy/models.py` — the `CallHistory` ORM row;
  * `ai_analytics.py` — `AIAnalytics.generate_summary`,
    `AIAnalytics.process_call_recording` (stage structure),
    `AIAnalytics.process_call_async`;
  * `backend/ai/transcribe.py` — `transcribe_recording`.

Timestamps (`datetime.utcnow()`) are modelled as integers; each handler
invocation reads one timestamp `now`.  The external PJSUA2 engine is modelled
by the per-call `pjState` string (the `ci.stateText` the library reports) and
by explicit `engineOk : Bool` parameters standing for whether an engine call
raises `pj.Error` (all such calls in the source are wrapped in
`try/except`).  Database commits are modelled as immediate updates to the
`history` list: the source commits before each handler returns.
-/

namespace SIPCalling

/-- One row of the `call_history` table (`legacy/models.py`, class
`CallHistory`).  `duration` has column default `0.0`; it is stored as an
integer number of seconds here.  Fields that the column leaves NULL until
written are `Option`s. -/
structure CallRecord where
  remote_uri : String
  direction : String
  status : String
  start_time : Option Int
  end_time : Option Int
  duration : Int
  recording_path : Option String
  transcript : Option String
  summary : Option String
  sentiment : Option String
deriving Repr, DecidableEq

/-- A freshly inserted `CallHistory(...)` row: only `remote_uri`, `direction`,
`status` and `start_time` are passed by the source; every other column keeps
its default (`duration = 0.0`, the rest NULL). -/
def CallRecord.new (remote dir st : String) (now : Int) : CallRecord :=
  { remote_uri := remote
    direction := dir
    status := st
    start_time := some now
    end_time := none
    duration := 0
    recording_path := none
    transcript := none
    summary := none
    sentiment := none }

/-- The in-memory `MyCall` object (`sip_client.py`) together with the engine
state PJSUA2 keeps for it.  `pjState` is the `ci.stateText` the engine
reports ("CALLING", "INCOMING", "EARLY", "CONNECTING", "CONFIRMED",
"DISCONNECTED"); `remoteUri` and `connectDuration` are the other `getInfo()`
fields the source reads.  `recording_id`, `call_start_time` and `call_record`
are the attributes `MyCall.__init__` sets (the source never assigns
`recording_id` anywhere, so it stays `none`).  `call_record` is the index of
the call's row in the history list. -/
structure CallObj where
  pjState : String
  remoteUri : String
  connectDuration : Option Int
  on_hold : Bool
  is_muted : Bool
  recording_id : Option Nat
  call_start_time : Option Int
  call_record : Option Nat
deriving Repr, DecidableEq

/-- Whole-client state: `hasAccount` is whether `self.account` is set,
`current_call` is `account.current_call` (an index into `calls`), `history`
is the `call_history` table, and `enrichmentStarted` records every call id
for which `AIAnalytics.process_call_async` has been invoked. -/
structure World where
  hasAccount : Bool
  current_call : Option Nat
  calls : List CallObj
  history : List CallRecord
  enrichmentStarted : List Nat
deriving Repr, DecidableEq

/-- Update the element at index `i` (identity when out of range). -/
def modifyAt (i : Nat) (f : α → α) : List α → List α
  | [] => []
  | a :: as =>
    match i with
    | 0 => f a :: as
    | n + 1 => a :: modifyAt n f as

/-- Outcome of the fallible I/O steps inside `MyCall.start_recording`
(`sip_client.py` lines 106-133): `mkdirFail` — `os.makedirs` (or the
`getInfo` call) raises; `startFail` — `getMedia(0).startRecording` raises;
`ok` — capture starts.  Every raise lands in the function's `except` clause,
which only logs. -/
inductive RecOutcome
  | mkdirFail
  | startFail
  | ok
deriving Repr, DecidableEq

/-- Splitting on a single separator character, Python `str.split(sep)`
semantics: the result always has at least one (possibly empty) piece. -/
def splitCharAux (sep : Char) : List Char → List Char → List String
  | [], acc => [String.mk acc.reverse]
  | ch :: rest, acc =>
    if ch == sep then String.mk acc.reverse :: splitCharAux sep rest []
    else splitCharAux sep rest (ch :: acc)

/-- Python `s.split(sep)` for a one-character separator. -/
def pySplitChar (s : String) (sep : Char) : List String :=
  splitCharAux sep s.data []

/-- `ci.remoteUri.split(':')[1].split('@')[0]` from `start_recording`.
Python raises `IndexError` (caught by the surrounding `except`) when the URI
has no `':'`, hence the `Option`. -/
def sanitizeRemote (uri : String) : Option String :=
  match (pySplitChar uri ':')[1]? with
  | none => none
  | some s => some ((pySplitChar s '@').headD s)

/-- `MyCall.start_recording` (`sip_client.py` lines 106-133), restricted to
its effect on the history table: on success it sets
`call_record.recording_path` to the generated filename and commits; any
exception is caught and only logged, leaving the record untouched.  The
source never assigns `self.recording_id`, so the call object is unchanged in
every case. -/
def start_recording (c : CallObj) (recDir tstamp : String)
    (hist : List CallRecord) (ro : RecOutcome) : List CallRecord :=
  match ro with
  | .mkdirFail => hist
  | _ =>
    match sanitizeRemote c.remoteUri with
    | none => hist
    | some remote =>
      let filename := recDir ++ "/call_" ++ remote ++ "_" ++ tstamp ++ ".wav"
      match ro with
      | .startFail => hist
      | _ =>
        match c.call_record with
        | some r => modifyAt r (fun rec => { rec with recording_path := some filename }) hist
        | none => hist

/-- `MyCall.onCallState` (`sip_client.py` lines 57-91).  The engine has moved
the call to `status` (= `ci.stateText`); the handler then:
on first "CONFIRMED", stamps `call_start_time`, writes
`status := 'answered'` and `start_time` to the record and commits, and starts
recording when `auto_record` is configured; on "DISCONNECTED" with a stamped
`call_start_time`, writes `end_time := now` and
`duration := now - call_start_time` to the record and commits (the status
column is not touched); finally it sets `account.current_call` to this call,
or to `None` on "DISCONNECTED".  (`stop_recording` is guarded by
`self.recording_id`, which is never assigned, so it never runs.) -/
def onCallState (w : World) (cid : Nat) (status : String) (now : Int)
    (auto_record : Bool) (recDir tstamp : String) (ro : RecOutcome) : World :=
  match w.calls[cid]? with
  | none => w
  | some c0 =>
    let c1 := { c0 with pjState := status }
    let res :=
      if status == "CONFIRMED" && c1.call_start_time.isNone then
        let c2 := { c1 with call_start_time := some now }
        let hist :=
          match c2.call_record with
          | some r =>
            modifyAt r (fun rec => { rec with status := "answered", start_time := some now })
              w.history
          | none => w.history
        if auto_record then (c2, start_recording c2 recDir tstamp hist ro)
        else (c2, hist)
      else if status == "DISCONNECTED" then
        let hist :=
          match c1.call_start_time with
          | some t =>
            match c1.call_record with
            | some r =>
              modifyAt r (fun rec => { rec with end_time := some now, duration := now - t })
                w.history
            | none => w.history
          | none => w.history
        (c1, hist)
      else (c1, w.history)
    { w with
      calls := w.calls.set cid res.1
      history := res.2
      current_call := if status == "DISCONNECTED" then none else some cid }

/-- Result of `SIPClient.make_call` (`sip_client.py` lines 332-369):
`noAccount` — "Not registered!", returns `None` before anything happens;
`callStarted cid` — the new `MyCall` is returned; `engineError` — `makeCall`
raised `pj.Error`, caught, `None` returned (the history row was already
committed). -/
inductive DialResult
  | noAccount
  | callStarted (cid : Nat)
  | engineError
deriving Repr, DecidableEq

/-- Python `dest.startswith(pre)`. -/
def strStartsWith (dest pre : String) : Bool :=
  pre.data.isPrefixOf dest.data

/-- Destination formatting in `make_call`: prefix `sip:` and append the
configured domain unless the destination already starts with `sip:`. -/
def formatDest (dest domain : String) : String :=
  if strStartsWith dest "sip:" then dest else "sip:" ++ dest ++ "@" ++ domain

/-- `SIPClient.make_call` (`sip_client.py` lines 332-369).  With no account
it returns `None` and does nothing.  Otherwise it always inserts and commits
a fresh history row (status 'calling', direction 'outbound') and then asks
the engine to place the call; there is no check of `current_call`, so no
busy condition exists.  `engineOk` is whether `call.makeCall` succeeds; when
it raises, the already-committed row remains but no live call results. -/
def make_call (w : World) (dest domain : String) (now : Int) (engineOk : Bool) :
    DialResult × World :=
  if !w.hasAccount then (.noAccount, w)
  else
    let d := formatDest dest domain
    let rec0 := CallRecord.new d "outbound" "calling" now
    let hist := w.history ++ [rec0]
    if engineOk then
      let c : CallObj :=
        { pjState := "CALLING"
          remoteUri := d
          connectDuration := none
          on_hold := false
          is_muted := false
          recording_id := none
          call_start_time := none
          call_record := some w.history.length }
      (.callStarted w.calls.length, { w with history := hist, calls := w.calls ++ [c] })
    else (.engineError, { w with history := hist })

/-- `MyAccount.onIncomingCall` (`sip_client.py` lines 220-250): builds a
`MyCall` for the incoming channel, inserts and commits a history row
(direction 'inbound', status 'ringing', `start_time := now`) and links it to
the call, then answers with 180 (or 200 under auto-answer) — an engine
action whose effects arrive later as state events.  `current_call` is not
assigned here. -/
def onIncomingCall (w : World) (remote : String) (now : Int) : World :=
  if !w.hasAccount then w
  else
    let rec0 := CallRecord.new remote "inbound" "ringing" now
    let c : CallObj :=
      { pjState := "INCOMING"
        remoteUri := remote
        connectDuration := none
        on_hold := false
        is_muted := false
        recording_id := none
        call_start_time := none
        call_record := some w.history.length }
    { w with history := w.history ++ [rec0], calls := w.calls ++ [c] }

/-- Result of `SIPClient.hangup` (`sip_client.py` lines 384-394). -/
inductive HangupResult
  | hungUp
  | engineError
  | noActiveCall
deriving Repr, DecidableEq

/-- `SIPClient.hangup` (`sip_client.py` lines 384-394): with an account and a
current call it asks the engine to hang up (a `pj.Error` is caught and
logged); otherwise it prints "No active call".  In every case the function
returns without touching any local or persisted state — the actual teardown
arrives later as a "DISCONNECTED" state event. -/
def sipHangup (w : World) (engineOk : Bool) : HangupResult × World :=
  if w.hasAccount && w.current_call.isSome then
    (if engineOk then .hungUp else .engineError, w)
  else (.noActiveCall, w)

/-- The `/api/call/hangup` endpoint (`api.py` lines 85-92): it invokes
`sip_client.hangup()` and unconditionally reports success. -/
def apiHangup (w : World) (engineOk : Bool) : Bool × World :=
  (true, (sipHangup w engineOk).2)

/-- `SIPClient.answer_call` (`sip_client.py` lines 371-382): engine action
only; no local state changes. -/
def answer_call (w : World) : World := w

/-- Shared shape of the `/api/call/hold`, `resume`, `mute`, `unmute`
endpoints (`api.py`): each requires `sip_client.account` and
`account.current_call` (404 otherwise) and then calls the corresponding
`MyCall` method, which performs the engine action inside `try/except` and
sets the local flag only on success. -/
def modifyCurrentCall (w : World) (f : CallObj → CallObj) : World :=
  if !w.hasAccount then w
  else
    match w.current_call with
    | none => w
    | some cid =>
      match w.calls[cid]? with
      | none => w
      | some c => { w with calls := w.calls.set cid (f c) }

/-- `MyCall.hold` via `/api/call/hold`: on engine success sets
`on_hold := True`; a raised error is caught and leaves the flag alone. -/
def apiHold (w : World) (engineOk : Bool) : World :=
  if engineOk then modifyCurrentCall w (fun c => { c with on_hold := true }) else w

/-- `MyCall.resume` via `/api/call/resume`. -/
def apiResume (w : World) (engineOk : Bool) : World :=
  if engineOk then modifyCurrentCall w (fun c => { c with on_hold := false }) else w

/-- `MyCall.mute` via `/api/call/mute`. -/
def apiMute (w : World) (engineOk : Bool) : World :=
  if engineOk then modifyCurrentCall w (fun c => { c with is_muted := true }) else w

/-- `MyCall.unmute` via `/api/call/unmute`. -/
def apiUnmute (w : World) (engineOk : Bool) : World :=
  if engineOk then modifyCurrentCall w (fun c => { c with is_muted := false }) else w

/-- `MyCall.send_dtmf` via `/api/call/dtmf`: engine action only. -/
def apiDtmf (w : World) (_digits : String) : World := w

/-- Return value of `SIPClient.get_call_status` (`sip_client.py` lines
396-408): either the `{'active': False}` dict or the six-field active
dict. -/
inductive CallStatus
  | inactive
  | active (state remote_uri : String) (duration : Int) (on_hold is_muted : Bool)
deriving Repr, DecidableEq

/-- `SIPClient.get_call_status` (`sip_client.py` lines 396-408): with an
account and a current call it reads `getInfo()` and builds the active dict
(`duration` falls back to 0 when `connectDuration` is absent); otherwise it
returns `{'active': False}`.  The inner `none` branch is unreachable in the
source (the reference is held directly) and is mapped to the inactive
answer. -/
def get_call_status (w : World) : CallStatus :=
  if w.hasAccount then
    match w.current_call with
    | some cid =>
      match w.calls[cid]? with
      | some c =>
        .active c.pjState c.remoteUri
          (match c.connectDuration with | some d => d | none => 0)
          c.on_hold c.is_muted
      | none => .inactive
    | none => .inactive
  else .inactive

/-- `AIAnalytics.process_call_async` (`ai_analytics.py` lines 227-231):
spawns a daemon `Thread` running `process_call_recording(call_id)` — i.e.
the enrichment pipeline starts for `call_id` off the call-control execution
path.  We record the start. -/
def process_call_async (w : World) (call_id : Nat) : World :=
  { w with enrichmentStarted := w.enrichmentStarted ++ [call_id] }

/-! ### AI analytics (`ai_analytics.py`) -/

/-- Worker for `pyWords`: accumulate the current word (reversed) and emit it
at each whitespace boundary, dropping empty pieces. -/
def splitWsAux : List Char → List Char → List String
  | [], acc => if acc.isEmpty then [] else [String.mk acc.reverse]
  | ch :: rest, acc =>
    if ch.isWhitespace then
      if acc.isEmpty then splitWsAux rest []
      else String.mk acc.reverse :: splitWsAux rest []
    else splitWsAux rest (ch :: acc)

/-- Python's `text.split()` with no argument: split on whitespace runs,
producing no empty pieces. -/
def pyWords (s : String) : List String :=
  splitWsAux s.data []

/-- The request `AIAnalytics.generate_summary` submits to the summarization
backend: `self.summarizer(text, max_length=130, min_length=30,
do_sample=False)`. -/
structure SummaryRequest where
  input : String
  min_length : Nat
  max_length : Nat
deriving Repr, DecidableEq

/-- `AIAnalytics.generate_summary` (`ai_analytics.py` lines 140-173).  The
backend (`self.summarizer`, loaded once in `__init__`) is a function that may
raise — a raise is caught by the `except` and turns the result into `None`.
The second component records the request actually submitted to the backend
(`none` when the backend was not invoked).  Control flow of the source:
return `None` when the summarizer is absent or the text falsy; return the
sentinel when the text has fewer than 50 words; otherwise truncate to 1024
characters and invoke the backend with `min_length=30, max_length=130`. -/
def generate_summary (summarizer : Option (String → Nat → Nat → Option String))
    (text : String) : Option String × Option SummaryRequest :=
  match summarizer with
  | none => (none, none)
  | some f =>
    if text == "" then (none, none)
    else if (pyWords text).length < 50 then
      (some "Call too short for summary", none)
    else
      let t := text.take 1024
      (f t 30 130, some { input := t, min_length := 30, max_length := 130 })

/-- The stage structure of `AIAnalytics.process_call_recording`
(`ai_analytics.py` lines 200-218), parameterized by the stage results: when
the transcript is truthy it is committed, then sentiment and summary are
each committed iff their stage returned a truthy value; with no transcript
the record is left untouched. -/
def process_stages (transcript : Option String)
    (sent : String → Option String) (sum : String → Option String)
    (r : CallRecord) : CallRecord :=
  match transcript with
  | none => r
  | some t =>
    if t == "" then r
    else
      let r1 := { r with transcript := some t }
      let r2 := match sent t with
        | some s => { r1 with sentiment := some s }
        | none => r1
      match sum t with
      | some s => { r2 with summary := some s }
      | none => r2

/-! ### Backend variant (`backend/ai/transcribe.py`) -/

/-- `transcribe_recording` (`backend/ai/transcribe.py` lines 7-17): returns
`None` when `Path(path)` does not exist, and `None` (the placeholder body)
when it does.  `fileExists` is the result of the `p.exists()` probe. -/
def transcribe_recording (fileExists : Bool) : Option String :=
  if !fileExists then none
  else none

/-! ### Trace semantics

An `Op` is one externally triggered step: a control-surface request
(`dial`, `answer`, `hangup`, `hold`, `resume`, `mute`, `unmute`, `dtmf`), an
incoming call, or a state-change event delivered by the engine for call
`cid` (carrying the timestamp, the configured `auto_record` flag, the
recording timestamp string, and the recording I/O outcome).  The configured
SIP domain and recording directory are the source defaults. -/

def cfgDomain : String := "example.com"

/-- `config.get('recording', {}).get('path', 'recordings')`. -/
def cfgRecDir : String := "recordings"

inductive Op
  | dial (dest : String) (now : Int) (engineOk : Bool)
  | incoming (remote : String) (now : Int)
  | event (cid : Nat) (status : String) (now : Int)
      (auto_record : Bool) (tstamp : String) (ro : RecOutcome)
  | answer
  | hangup (engineOk : Bool)
  | hold (engineOk : Bool)
  | resume (engineOk : Bool)
  | mute (engineOk : Bool)
  | unmute (engineOk : Bool)
  | dtmf (digits : String)
deriving Repr, DecidableEq

/-- One step of the client, dispatching to the embedded source operations.
No branch ever invokes `process_call_async`: the repository contains no call
site for it. -/
def step (w : World) : Op → World
  | .dial dest now engineOk => (make_call w dest cfgDomain now engineOk).2
  | .incoming remote now => onIncomingCall w remote now
  | .event cid status now ar ts ro => onCallState w cid status now ar cfgRecDir ts ro
  | .answer => answer_call w
  | .hangup engineOk => (sipHangup w engineOk).2
  | .hold engineOk => apiHold w engineOk
  | .resume engineOk => apiResume w engineOk
  | .mute engineOk => apiMute w engineOk
  | .unmute engineOk => apiUnmute w engineOk
  | .dtmf digits => apiDtmf w digits

def run (w : World) : List Op → World
  | [] => w
  | op :: ops => run (step w op) ops

/-- Client state right after `SIPClient.start`/`register`: account created,
no call, empty history. -/
def initWorld : World :=
  { hasAccount := true
    current_call := none
    calls := []
    history := []
    enrichmentStarted := [] }

/-- The spec's active states: a session counts as active when its engine
state is Ringing ("EARLY") or Connected ("CONFIRMED"); Held is "CONFIRMED"
with the `on_hold` flag, hence included. -/
def sessionActive (c : CallObj) : Bool :=
  c.pjState == "EARLY" || c.pjState == "CONFIRMED"

/-- A call the engine still considers in progress (created and not yet
disconnected). -/
def inProgress (c : CallObj) : Bool :=
  !(c.pjState == "DISCONNECTED") && !(c.pjState == "NULL")

def countActive (w : World) : Nat := w.calls.countP sessionActive

def countInProgress (w : World) : Nat := w.calls.countP inProgress

/-- Environment discipline under which the single-active-call property can
hold: a dial or incoming call happens only when no call is in progress, and
the engine delivers state events only for calls that are still in
progress. -/
def okOp (w : World) : Op → Bool
  | .dial _ _ _ => countInProgress w == 0
  | .incoming _ _ => countInProgress w == 0
  | .event cid _ _ _ _ _ =>
    match w.calls[cid]? with
    | some c => inProgress c
    | none => false
  | _ => true

def okTrace (w : World) : List Op → Bool
  | [] => true
  | op :: ops => okOp w op && okTrace (step w op) ops

/-! ### Concrete fixtures used by counterexamples and witnesses -/

/-- The live call of `busyWorld`: an answered outbound call the engine
reports as "CONFIRMED" (the spec's Connected). -/
def busyCall : CallObj :=
  { pjState := "CONFIRMED"
    remoteUri := "sip:1001@example.com"
    connectDuration := some 4
    on_hold := false
    is_muted := false
    recording_id := none
    call_start_time := some 1
    call_record := some 0 }

/-- The history row of `busyWorld`'s live call (created by `make_call` at
time 0, updated by the "CONFIRMED" transition at time 1). -/
def busyRecord : CallRecord :=
  { CallRecord.new "sip:1001@example.com" "outbound" "calling" 0 with
    status := "answered", start_time := some 1 }

/-- A client with one active (Connected) session and its history row. -/
def busyWorld : World :=
  { hasAccount := true
    current_call := some 0
    calls := [busyCall]
    history := [busyRecord]
    enrichmentStarted := [] }

/-- A not-yet-answered outbound call (engine state "EARLY", the spec's
Ringing): `call_start_time` is still unset. -/
def ringingCall : CallObj :=
  { pjState := "EARLY"
    remoteUri := "sip:1001@example.com"
    connectDuration := none
    on_hold := false
    is_muted := false
    recording_id := none
    call_start_time := none
    call_record := some 0 }

/-- A client with one ringing session, before the answer transition. -/
def ringingWorld : World :=
  { hasAccount := true
    current_call := some 0
    calls := [ringingCall]
    history := [CallRecord.new "sip:1001@example.com" "outbound" "calling" 0]
    enrichmentStarted := [] }

/-- Dialing a second call while the first is still Connected. -/
def twoDialTrace : List Op :=
  [.dial "1001" 0 true, .event 0 "CONFIRMED" 1 false "t" .ok,
   .dial "1002" 2 true, .event 1 "CONFIRMED" 3 false "t" .ok]

/-- One complete call: dial, connect (recording off), hang up, engine
disconnect. -/
def dialHangupTrace : List Op :=
  [.dial "1001" 0 true, .event 0 "CONFIRMED" 1 false "t" .ok,
   .hangup true, .event 0 "DISCONNECTED" 2 false "t" .ok]

/-- The client after `dialHangupTrace`: the session has ended and
`current_call` is cleared. -/
def endedWorld : World := run initWorld dialHangupTrace

/-- One complete call with auto-record on and capture succeeding, so the
history row ends with a non-empty `recording_path`. -/
def recordedCallTrace : List Op :=
  [.dial "1001" 0 true, .event 0 "CONFIRMED" 1 true "20250101" .ok,
   .hangup true, .event 0 "DISCONNECTED" 10 true "20250101" .ok]

/-- A well-behaved session (dial only while idle, events only for the live
call): dial, connect, hold, resume, mute, DTMF, hang up, disconnect. -/
def demoTrace : List Op :=
  [.dial "1001" 0 true, .event 0 "CONFIRMED" 1 false "t" .ok,
   .hold true, .resume true, .mute true, .dtmf "123",
   .hangup true, .event 0 "DISCONNECTED" 2 false "t" .ok]

/-- A 74-character, 15-word transcript (the claim's "80-character, ~13-word"
example shape): well under the 50-word threshold. -/
def shortTranscript : String :=
  "We spoke about the demo call today and agreed to follow up early next week"

/-- A transcript of 60 words, above the 50-word threshold. -/
def longTranscript : String :=
  String.intercalate " " (List.replicate 30 "service update")

/-- A loaded summarization backend that always answers. -/
def demoSummarizer : String → Nat → Nat → Option String :=
  fun _ _ _ => some "Demo summary"

/-! ### Helper lemmas -/

theorem modifyAt_get_self (f : α → α) :
    ∀ (l : List α) (i : Nat), (modifyAt i f l)[i]? = l[i]?.map f
  | [], i => by cases i <;> simp [modifyAt]
  | a :: as, 0 => by simp [modifyAt]
  | a :: as, i + 1 => by
    simp only [modifyAt, List.getElem?_cons_succ]
    exact modifyAt_get_self f as i

theorem countP_set_le (p : α → Bool) (a : α) :
    ∀ (l : List α) (i : Nat),
      (∀ b, l[i]? = some b → p a = true → p b = true) →
      (l.set i a).countP p ≤ l.countP p
  | [], i, _ => by simp
  | x :: xs, 0, h => by
    simp only [List.set_cons_zero, List.countP_cons]
    have hx := h x (by simp)
    cases hpa : p a with
    | true => simp [hpa, hx hpa]
    | false => simp [hpa]
  | x :: xs, i + 1, h => by
    simp only [List.set_cons_succ, List.countP_cons]
    have := countP_set_le p a xs i (fun b hb => h b (by simpa using hb))
    omega

theorem countP_set_eq (p : α → Bool) (a : α) :
    ∀ (l : List α) (i : Nat),
      (∀ b, l[i]? = some b → p a = p b) →
      (l.set i a).countP p = l.countP p
  | [], i, _ => by simp
  | x :: xs, 0, h => by
    have hx := h x (by simp)
    simp only [List.set_cons_zero, List.countP_cons, hx]
  | x :: xs, i + 1, h => by
    simp only [List.set_cons_succ, List.countP_cons]
    rw [countP_set_eq p a xs i (fun b hb => h b (by simpa using hb))]

theorem countP_le_countP (p q : α → Bool) (l : List α)
    (h : ∀ a, p a = true → q a = true) : l.countP p ≤ l.countP q := by
  induction l with
  | nil => simp
  | cons x xs ih =>
    simp only [List.countP_cons]
    cases hp : p x with
    | true => simp [hp, h x hp]; omega
    | false => simp [hp]; split <;> omega

theorem countActive_le_countInProgress (w : World) :
    countActive w ≤ countInProgress w := by
  refine countP_le_countP _ _ _ (fun c hc => ?_)
  simp only [sessionActive, Bool.or_eq_true, beq_iff_eq] at hc
  rcases hc with h | h <;> simp [inProgress, h]

theorem sipHangup_snd (w : World) (engineOk : Bool) :
    (sipHangup w engineOk).2 = w := by
  unfold sipHangup
  split <;> rfl

theorem countInProgress_set_le (w : World) (cid : Nat) (c a : CallObj)
    (hget : w.calls[cid]? = some c) (hin : inProgress c = true) :
    (w.calls.set cid a).countP inProgress ≤ countInProgress w := by
  apply countP_set_le
  intro b hb _
  rw [hget] at hb
  cases hb
  exact hin

theorem countP_singleton_le (p : α → Bool) (a : α) : List.countP p [a] ≤ 1 := by
  cases hpa : p a <;> simp [List.countP_cons, hpa]

theorem countInProgress_modifyCurrentCall (w : World) (f : CallObj → CallObj)
    (hf : ∀ c, ((f c).pjState) = c.pjState) :
    countInProgress (modifyCurrentCall w f) = countInProgress w := by
  cases hacc : w.hasAccount with
  | false => simp [modifyCurrentCall, hacc]
  | true =>
    cases hcc : w.current_call with
    | none => simp [modifyCurrentCall, hacc, hcc]
    | some cid =>
      cases hget : w.calls[cid]? with
      | none => simp [modifyCurrentCall, hacc, hcc, hget]
      | some c =>
        simp only [modifyCurrentCall, hacc, hcc, hget, Bool.not_true, Bool.false_eq_true,
          if_false, countInProgress]
        apply countP_set_eq
        intro b hb
        rw [hget] at hb
        cases hb
        simp [inProgress, hf]

theorem make_call_countInProgress (w : World) (dest dom : String) (now : Int)
    (engineOk : Bool) :
    countInProgress (make_call w dest dom now engineOk).2 ≤ countInProgress w + 1 := by
  cases hacc : w.hasAccount with
  | false => simp [make_call, hacc]
  | true =>
    cases engineOk with
    | false => simp [make_call, hacc, countInProgress]
    | true =>
      simp only [make_call, hacc, Bool.not_true, Bool.false_eq_true, if_false, if_true,
        countInProgress, List.countP_append]
      have := countP_singleton_le inProgress
        ({ pjState := "CALLING", remoteUri := formatDest dest dom, connectDuration := none,
           on_hold := false, is_muted := false, recording_id := none,
           call_start_time := none, call_record := some w.history.length } : CallObj)
      omega

theorem onIncomingCall_countInProgress (w : World) (remote : String) (now : Int) :
    countInProgress (onIncomingCall w remote now) ≤ countInProgress w + 1 := by
  cases hacc : w.hasAccount with
  | false => simp [onIncomingCall, hacc]
  | true =>
    simp only [onIncomingCall, hacc, Bool.not_true, Bool.false_eq_true, if_false,
      countInProgress, List.countP_append]
    have := countP_singleton_le inProgress
      ({ pjState := "INCOMING", remoteUri := remote, connectDuration := none,
         on_hold := false, is_muted := false, recording_id := none,
         call_start_time := none, call_record := some w.history.length } : CallObj)
    omega

theorem onCallState_countInProgress_le (w : World) (cid : Nat) (status : String)
    (now : Int) (ar : Bool) (rd ts : String) (ro : RecOutcome) (c : CallObj)
    (hget : w.calls[cid]? = some c) (hin : inProgress c = true) :
    countInProgress (onCallState w cid status now ar rd ts ro) ≤ countInProgress w := by
  simp only [onCallState, hget]
  exact countInProgress_set_le w cid c _ hget hin

theorem step_countInProgress (w : World) (op : Op)
    (hok : okOp w op = true) (h1 : countInProgress w ≤ 1) :
    countInProgress (step w op) ≤ 1 := by
  cases op with
  | dial dest now engineOk =>
    have h0 : countInProgress w = 0 := by simpa [okOp] using hok
    have := make_call_countInProgress w dest cfgDomain now engineOk
    simp only [step]
    omega
  | incoming remote now =>
    have h0 : countInProgress w = 0 := by simpa [okOp] using hok
    have := onIncomingCall_countInProgress w remote now
    simp only [step]
    omega
  | event cid status now ar ts ro =>
    cases hget : w.calls[cid]? with
    | none => simp [okOp, hget] at hok
    | some c =>
      have hin : inProgress c = true := by simpa [okOp, hget] using hok
      have := onCallState_countInProgress_le w cid status now ar cfgRecDir ts ro c hget hin
      simp only [step]
      omega
  | answer => simpa [step, answer_call] using h1
  | hangup engineOk => simpa [step, sipHangup_snd] using h1
  | hold engineOk =>
    cases engineOk with
    | false => simpa [step, apiHold] using h1
    | true =>
      simp only [step, apiHold, if_true]
      refine le_trans (le_of_eq (countInProgress_modifyCurrentCall w _ ?_)) h1
      intro c
      rfl
  | resume engineOk =>
    cases engineOk with
    | false => simpa [step, apiResume] using h1
    | true =>
      simp only [step, apiResume, if_true]
      refine le_trans (le_of_eq (countInProgress_modifyCurrentCall w _ ?_)) h1
      intro c
      rfl
  | mute engineOk =>
    cases engineOk with
    | false => simpa [step, apiMute] using h1
    | true =>
      simp only [step, apiMute, if_true]
      refine le_trans (le_of_eq (countInProgress_modifyCurrentCall w _ ?_)) h1
      intro c
      rfl
  | unmute engineOk =>
    cases engineOk with
    | false => simpa [step, apiUnmute] using h1
    | true =>
      simp only [step, apiUnmute, if_true]
      refine le_trans (le_of_eq (countInProgress_modifyCurrentCall w _ ?_)) h1
      intro c
      rfl
  | dtmf digits => simpa [step, apiDtmf] using h1

theorem run_countInProgress (ops : List Op) (w : World)
    (h1 : countInProgress w ≤ 1) (hok : okTrace w ops = true) :
    countInProgress (run w ops) ≤ 1 := by
  induction ops generalizing w with
  | nil => simpa [run] using h1
  | cons op ops ih =>
    simp only [okTrace, Bool.and_eq_true] at hok
    exact ih (step w op) (step_countInProgress w op hok.1 h1) hok.2

theorem onCallState_disconnected_history (w : World) (cid r : Nat) (c : CallObj)
    (rec : CallRecord) (t now : Int) (ar : Bool) (rd ts : String) (ro : RecOutcome)
    (hget : w.calls[cid]? = some c) (hr : c.call_record = some r)
    (hrec : w.history[r]? = some rec) (hcs : c.call_start_time = some t) :
    (onCallState w cid "DISCONNECTED" now ar rd ts ro).history[r]? =
      some { rec with end_time := some now, duration := now - t } := by
  have hne : (("DISCONNECTED" : String) == "CONFIRMED") = false := rfl
  simp only [onCallState, hget, hne, Bool.false_and, Bool.false_eq_true, if_false,
    beq_self_eq_true, if_true, hcs, hr]
  rw [modifyAt_get_self, hrec]
  rfl

theorem onCallState_disconnected_no_connect (w : World) (cid : Nat) (c : CallObj)
    (now : Int) (ar : Bool) (rd ts : String) (ro : RecOutcome)
    (hget : w.calls[cid]? = some c) (hcs : c.call_start_time = none) :
    (onCallState w cid "DISCONNECTED" now ar rd ts ro).history = w.history := by
  have hne : (("DISCONNECTED" : String) == "CONFIRMED") = false := rfl
  simp only [onCallState, hget, hne, Bool.false_and, Bool.false_eq_true, if_false,
    beq_self_eq_true, if_true, hcs]

theorem onCallState_confirmed_history (w : World) (cid r : Nat) (c : CallObj)
    (rec : CallRecord) (now : Int) (rd ts : String) (ro : RecOutcome)
    (hget : w.calls[cid]? = some c) (hr : c.call_record = some r)
    (hrec : w.history[r]? = some rec) (hcs : c.call_start_time = none) :
    (onCallState w cid "CONFIRMED" now false rd ts ro).history[r]? =
      some { rec with status := "answered", start_time := some now } := by
  simp only [onCallState, hget, beq_self_eq_true, Bool.true_and, hcs, Option.isNone_none,
    if_true, hr, Bool.false_eq_true, if_false]
  rw [modifyAt_get_self, hrec]
  rfl

theorem start_recording_fail (c : CallObj) (rd ts : String) (hist : List CallRecord)
    (ro : RecOutcome) (hro : ro ≠ RecOutcome.ok) :
    start_recording c rd ts hist ro = hist := by
  cases ro with
  | mkdirFail => rfl
  | startFail =>
    unfold start_recording
    cases hs : sanitizeRemote c.remoteUri <;> simp [hs]
  | ok => exact absurd rfl hro

theorem onCallState_confirmed_status (w : World) (cid r : Nat) (c : CallObj)
    (rec : CallRecord) (now : Int) (ar : Bool) (ts : String) (ro : RecOutcome)
    (hget : w.calls[cid]? = some c) (hr : c.call_record = some r)
    (hrec : w.history[r]? = some rec) (hcs : c.call_start_time = none) :
    ((onCallState w cid "CONFIRMED" now ar cfgRecDir ts ro).history[r]?).map
      (fun x => (x.status, x.start_time)) = some ("answered", some now) := by
  cases ar with
  | false =>
    rw [onCallState_confirmed_history w cid r c rec now cfgRecDir ts ro hget hr hrec hcs]
    rfl
  | true =>
    simp only [onCallState, hget, beq_self_eq_true, Bool.true_and, hcs, Option.isNone_none,
      if_true, hr]
    cases ro with
    | mkdirFail =>
      rw [start_recording_fail _ _ _ _ _ (by decide), modifyAt_get_self, hrec]
      rfl
    | startFail =>
      rw [start_recording_fail _ _ _ _ _ (by decide), modifyAt_get_self, hrec]
      rfl
    | ok =>
      simp only [start_recording]
      cases hs : sanitizeRemote c.remoteUri with
      | none =>
        simp only [hs]
        rw [modifyAt_get_self, hrec]
        rfl
      | some remote =>
        simp only [hs]
        rw [modifyAt_get_self, modifyAt_get_self, hrec]
        rfl

theorem modifyCurrentCall_history (w : World) (f : CallObj → CallObj) :
    (modifyCurrentCall w f).history = w.history := by
  cases hacc : w.hasAccount with
  | false => simp [modifyCurrentCall, hacc]
  | true =>
    cases hcc : w.current_call with
    | none => simp [modifyCurrentCall, hacc, hcc]
    | some cid =>
      cases hget : w.calls[cid]? with
      | none => simp [modifyCurrentCall, hacc, hcc, hget]
      | some c => simp [modifyCurrentCall, hacc, hcc, hget]

theorem modifyCurrentCall_enrichment (w : World) (f : CallObj → CallObj) :
    (modifyCurrentCall w f).enrichmentStarted = w.enrichmentStarted := by
  cases hacc : w.hasAccount with
  | false => simp [modifyCurrentCall, hacc]
  | true =>
    cases hcc : w.current_call with
    | none => simp [modifyCurrentCall, hacc, hcc]
    | some cid =>
      cases hget : w.calls[cid]? with
      | none => simp [modifyCurrentCall, hacc, hcc, hget]
      | some c => simp [modifyCurrentCall, hacc, hcc, hget]

theorem step_enrichmentStarted (w : World) (op : Op) :
    (step w op).enrichmentStarted = w.enrichmentStarted := by
  cases op with
  | dial dest now engineOk =>
    cases hacc : w.hasAccount <;> cases engineOk <;> simp [step, make_call, hacc]
  | incoming remote now =>
    cases hacc : w.hasAccount <;> simp [step, onIncomingCall, hacc]
  | event cid status now ar ts ro =>
    cases hget : w.calls[cid]? <;> simp [step, onCallState, hget]
  | answer => rfl
  | hangup engineOk => simp [step, sipHangup_snd]
  | hold engineOk =>
    cases engineOk <;> simp [step, apiHold, modifyCurrentCall_enrichment]
  | resume engineOk =>
    cases engineOk <;> simp [step, apiResume, modifyCurrentCall_enrichment]
  | mute engineOk =>
    cases engineOk <;> simp [step, apiMute, modifyCurrentCall_enrichment]
  | unmute engineOk =>
    cases engineOk <;> simp [step, apiUnmute, modifyCurrentCall_enrichment]
  | dtmf digits => rfl

theorem run_enrichmentStarted (ops : List Op) (w : World) :
    (run w ops).enrichmentStarted = w.enrichmentStarted := by
  induction ops generalizing w with
  | nil => rfl
  | cons op ops ih => rw [run, ih, step_enrichmentStarted]

/-! ### Claim theorems -/

/-- Claim C1, counterexample.  In `busyWorld` one session is active (engine
state "CONFIRMED", the spec's Connected), yet `make_call` does not fail with
any busy error: it returns the newly started call, the history has grown by
one record, and after the engine confirms the new call two sessions are
active at once. -/
theorem c1_counterexample :
    countActive busyWorld = 1
    ∧ (make_call busyWorld "1002" cfgDomain 5 true).1 = DialResult.callStarted 1
    ∧ (make_call busyWorld "1002" cfgDomain 5 true).2.history.length = 2
    ∧ countActive (step (make_call busyWorld "1002" cfgDomain 5 true).2
        (Op.event 1 "CONFIRMED" 6 false "t" RecOutcome.ok)) = 2 :=
  ⟨rfl, rfl, rfl, rfl⟩

/-- Claim C1, amended: `make_call` performs no busy check at all.  Whenever
an account is registered — regardless of any active session — it appends and
commits exactly one new `CallHistoryRecord` (status 'calling', direction
'outbound') and attempts the call; it fails only when no account is
registered, in which case nothing is created.  No `SessionBusy` failure
exists in the code. -/
theorem c1_no_busy_check (w : World) (dest : String) (now : Int) (engineOk : Bool) :
    (w.hasAccount = true →
      (make_call w dest cfgDomain now engineOk).2.history =
        w.history ++ [CallRecord.new (formatDest dest cfgDomain) "outbound" "calling" now])
    ∧ (w.hasAccount = false →
      make_call w dest cfgDomain now engineOk = (DialResult.noAccount, w)) := by
  constructor
  · intro hacc
    cases engineOk <;> simp [make_call, hacc]
  · intro hacc
    simp [make_call, hacc]

/-- Witness for `c1_no_busy_check` at the concrete busy client. -/
theorem c1_no_busy_check_witness :
    (make_call busyWorld "1002" cfgDomain 5 true).2.history =
      busyWorld.history ++
        [CallRecord.new (formatDest "1002" cfgDomain) "outbound" "calling" 5] :=
  (c1_no_busy_check busyWorld "1002" 5 true).1 rfl

/-- Claim C2, counterexample.  The operation sequence dial, confirm, dial,
confirm — executable against the embedded client — ends with two sessions
whose state is in the spec's active set at the same time. -/
theorem c2_counterexample : countActive (run initWorld twoDialTrace) = 2 := rfl

/-- Claim C2, amended: the single-active-session invariant holds only under
an environment discipline the code itself does not enforce — every dial or
incoming call arrives when no call is in progress and the engine delivers
events only for in-progress calls (`okTrace`).  Under that discipline, at
most one session is ever in the active set. -/
theorem c2_single_active_conditional (w : World) (ops : List Op)
    (h1 : countInProgress w ≤ 1) (hok : okTrace w ops = true) :
    countActive (run w ops) ≤ 1 :=
  (countActive_le_countInProgress (run w ops)).trans (run_countInProgress ops w h1 hok)

/-- Witness for `c2_single_active_conditional` on a full well-behaved
session (dial, connect, hold, resume, mute, DTMF, hangup, disconnect). -/
theorem c2_single_active_conditional_witness :
    countActive (run initWorld demoTrace) ≤ 1 :=
  c2_single_active_conditional initWorld demoTrace (by decide) (by decide)

/-- Claim C3, counterexample.  After a complete dial → confirm → hangup →
disconnect sequence, the Ended transition has committed `end_time` and
`duration`, yet the record's status still reads "answered": no "ended"
status is ever written, so a caller reading history immediately after
hangup does not observe status "ended". -/
theorem c3_counterexample :
    ((run initWorld dialHangupTrace).history.map
      fun r => (r.status, r.end_time, r.duration)) = [("answered", some 2, 1)] := rfl

/-- Claim C3, amended: the answer transition ("CONFIRMED") synchronously
commits status 'answered' and `start_time` before the handler returns —
under every `auto_record` configuration and every recording outcome (the
record projection is used because with auto-record on and capture succeeding
the same commit also carries `recording_path`) — and the end transition
("DISCONNECTED") synchronously commits `end_time` and `duration` before the
handler returns but leaves the status column untouched (it never becomes
"ended"); hold, resume, mute and unmute write nothing to history at all. -/
theorem c3_transition_writes (w : World) (cid r : Nat) (c : CallObj)
    (rec : CallRecord) (now t : Int) (ar : Bool) (ts : String) (ro : RecOutcome)
    (engineOk : Bool)
    (hget : w.calls[cid]? = some c) (hr : c.call_record = some r)
    (hrec : w.history[r]? = some rec) :
    (c.call_start_time = none →
      ((onCallState w cid "CONFIRMED" now ar cfgRecDir ts ro).history[r]?).map
        (fun x => (x.status, x.start_time)) = some ("answered", some now))
    ∧ (c.call_start_time = some t →
      (onCallState w cid "DISCONNECTED" now ar cfgRecDir ts ro).history[r]? =
        some { rec with end_time := some now, duration := now - t })
    ∧ (apiHold w engineOk).history = w.history
    ∧ (apiResume w engineOk).history = w.history
    ∧ (apiMute w engineOk).history = w.history
    ∧ (apiUnmute w engineOk).history = w.history := by
  refine ⟨?_, ?_, ?_, ?_, ?_, ?_⟩
  · intro hcs
    exact onCallState_confirmed_status w cid r c rec now ar ts ro hget hr hrec hcs
  · intro hcs
    exact onCallState_disconnected_history w cid r c rec t now ar cfgRecDir ts ro
      hget hr hrec hcs
  · cases engineOk <;> simp [apiHold, modifyCurrentCall_history]
  · cases engineOk <;> simp [apiResume, modifyCurrentCall_history]
  · cases engineOk <;> simp [apiMute, modifyCurrentCall_history]
  · cases engineOk <;> simp [apiUnmute, modifyCurrentCall_history]

/-- Witness for `c3_transition_writes`: the answer transition of a ringing
call under the source's default configuration (auto-record on, capture
succeeding) commits status 'answered' and the connect timestamp, and the
end transition of the busy client commits end time and duration. -/
theorem c3_transition_writes_witness :
    ((onCallState ringingWorld 0 "CONFIRMED" 7 true cfgRecDir "20250101"
        RecOutcome.ok).history[0]?).map (fun x => (x.status, x.start_time)) =
      some ("answered", some 7)
    ∧ (onCallState busyWorld 0 "DISCONNECTED" 9 true cfgRecDir "t"
        RecOutcome.ok).history[0]? =
      some { busyRecord with end_time := some 9, duration := 9 - 1 } :=
  ⟨(c3_transition_writes ringingWorld 0 0 ringingCall
      (CallRecord.new "sip:1001@example.com" "outbound" "calling" 0) 7 0 true "20250101"
      RecOutcome.ok true rfl rfl rfl).1 rfl,
   (c3_transition_writes busyWorld 0 0 busyCall busyRecord 9 1 true "t" RecOutcome.ok true
      rfl rfl rfl).2.1 rfl⟩

/-- Claim C4: `hangup` with no current call (in particular after the session
has ended and "DISCONNECTED" cleared `current_call`) is a no-op:
`SIPClient.hangup` only prints "No active call" and changes nothing, and the
`/api/call/hangup` endpoint still reports success; the history — including
every stored duration — is untouched. -/
theorem c4_hangup_idempotent (w : World) (engineOk : Bool)
    (h : w.current_call = none) :
    sipHangup w engineOk = (HangupResult.noActiveCall, w)
    ∧ apiHangup w engineOk = (true, w) := by
  have hx : (w.hasAccount && w.current_call.isSome) = false := by simp [h]
  constructor
  · simp [sipHangup, hx]
  · simp [apiHangup, sipHangup, hx]

/-- Witness for `c4_hangup_idempotent`: a second hangup right after a
completed call. -/
theorem c4_hangup_idempotent_witness :
    sipHangup endedWorld true = (HangupResult.noActiveCall, endedWorld)
    ∧ apiHangup endedWorld true = (true, endedWorld) :=
  c4_hangup_idempotent endedWorld true rfl

/-- Claim C5: at the Ended transition, when the call was answered
(`call_start_time = some t`, stamped at the answer transition together with
the record's `start_time`), the committed row has `end_time = now` and
`duration = now - t` — that is, duration equals end time minus connected
time — and the duration is nonnegative whenever the clock is monotone
(`t ≤ now`).  When the call was never answered the handler leaves history
untouched, so the duration keeps the creation default, which is 0. -/
theorem c5_duration (w : World) (cid r : Nat) (c : CallObj) (rec : CallRecord)
    (t now : Int) (ar : Bool) (ts : String) (ro : RecOutcome)
    (u dir st : String) (n : Int)
    (hget : w.calls[cid]? = some c) (hr : c.call_record = some r)
    (hrec : w.history[r]? = some rec) :
    (c.call_start_time = some t →
      ((onCallState w cid "DISCONNECTED" now ar cfgRecDir ts ro).history[r]? =
        some { rec with end_time := some now, duration := now - t })
      ∧ (t ≤ now → 0 ≤ now - t))
    ∧ (c.call_start_time = none →
      (onCallState w cid "DISCONNECTED" now ar cfgRecDir ts ro).history = w.history)
    ∧ (CallRecord.new u dir st n).duration = 0 := by
  refine ⟨fun hcs => ⟨?_, fun hle => by omega⟩, fun hcs => ?_, rfl⟩
  · exact onCallState_disconnected_history w cid r c rec t now ar cfgRecDir ts ro
      hget hr hrec hcs
  · exact onCallState_disconnected_no_connect w cid c now ar cfgRecDir ts ro hget hcs

/-- Witness for `c5_duration` at the concrete busy client. -/
theorem c5_duration_witness :
    (onCallState busyWorld 0 "DISCONNECTED" 4 true cfgRecDir "t" RecOutcome.ok).history[0]? =
      some { busyRecord with end_time := some 4, duration := 4 - 1 } :=
  ((c5_duration busyWorld 0 0 busyCall busyRecord 1 4 true "t" RecOutcome.ok
    "u" "d" "s" 0 rfl rfl rfl).1 rfl).1

/-- Claim C6: the repository defines the asynchronous enrichment trigger
(`process_call_async`, which appends to `enrichmentStarted` when invoked —
last conjunct) but no call-control path ever invokes it.  On the concrete
trace where a record reaches its Ended transition with a non-empty
`recording_path`, the pipeline has been started zero times, and along every
operation sequence whatsoever the set of started enrichments never grows. -/
theorem c6_pipeline_never_started :
    ((run initWorld recordedCallTrace).history.map
      fun r => (r.recording_path, r.end_time)) =
        [(some "recordings/call_1001_20250101.wav", some 10)]
    ∧ (run initWorld recordedCallTrace).enrichmentStarted = []
    ∧ (∀ w ops, (run w ops).enrichmentStarted = w.enrichmentStarted)
    ∧ (∀ w i, (process_call_async w i).enrichmentStarted =
        w.enrichmentStarted ++ [i]) :=
  ⟨by decide, rfl, fun w ops => run_enrichmentStarted ops w, fun _ _ => rfl⟩

/-- Claim C7, counterexample.  Two transcripts with fewer than 50 words for
which `generate_summary` does not return the sentinel: the empty transcript
(with a loaded summarizer), and a short transcript when the summarizer
backend is not loaded — both hit the `if not self.summarizer or not text`
guard and return `None`. -/
theorem c7_counterexample :
    (pyWords "").length < 50
    ∧ generate_summary (some demoSummarizer) "" = (none, none)
    ∧ (pyWords "hello operator").length < 50
    ∧ generate_summary none "hello operator" = (none, none) :=
  ⟨by decide, rfl, by decide, rfl⟩

/-- Claim C7, amended: with a loaded summarizer and a non-empty transcript,
fewer than 50 words yields exactly the sentinel "Call too short for summary"
and the backend is not invoked (no request recorded); at 50 words or more
the submitted input is the transcript truncated to 1024 characters with a
requested output of min 30 / max 130 units. -/
theorem c7_summary_policy (f : String → Nat → Nat → Option String) (text : String)
    (hne : text ≠ "") :
    ((pyWords text).length < 50 →
      generate_summary (some f) text = (some "Call too short for summary", none))
    ∧ (50 ≤ (pyWords text).length →
      generate_summary (some f) text =
        (f (text.take 1024) 30 130,
         some { input := text.take 1024, min_length := 30, max_length := 130 })) := by
  have hb : (text == "") = false := beq_eq_false_iff_ne.mpr hne
  constructor
  · intro hlt
    simp [generate_summary, hb, hlt]
  · intro hge
    have hnlt : ¬ (pyWords text).length < 50 := by omega
    simp [generate_summary, hb, hnlt]

/-- Witness for `c7_summary_policy`: the short transcript gets the sentinel,
the 60-word transcript goes to the backend truncated with bounds 30/130. -/
theorem c7_summary_policy_witness :
    generate_summary (some demoSummarizer) shortTranscript =
      (some "Call too short for summary", none)
    ∧ generate_summary (some demoSummarizer) longTranscript =
      (demoSummarizer (longTranscript.take 1024) 30 130,
       some { input := longTranscript.take 1024, min_length := 30, max_length := 130 }) :=
  ⟨(c7_summary_policy demoSummarizer shortTranscript (by decide)).1 (by decide),
   (c7_summary_policy demoSummarizer longTranscript (by decide)).2 (by decide)⟩

/-- Claim C8: every I/O failure inside `start_recording` is contained — the
function returns normally with the history exactly as it was (so
`recording_path` stays unset), the surrounding "CONFIRMED" handling is
byte-for-byte what it would have been with recording disabled (the call is
not aborted), and the history can change only when capture actually
started. -/
theorem c8_recording_failure_contained (c : CallObj) (ts : String)
    (hist : List CallRecord) (ro : RecOutcome) :
    (ro ≠ RecOutcome.ok → start_recording c cfgRecDir ts hist ro = hist)
    ∧ (start_recording c cfgRecDir ts hist ro ≠ hist → ro = RecOutcome.ok)
    ∧ (ro ≠ RecOutcome.ok → ∀ w cid now,
        onCallState w cid "CONFIRMED" now true cfgRecDir ts ro =
          onCallState w cid "CONFIRMED" now false cfgRecDir ts RecOutcome.ok) := by
  refine ⟨start_recording_fail c cfgRecDir ts hist ro, ?_, ?_⟩
  · intro hne
    by_contra hro
    exact hne (start_recording_fail c cfgRecDir ts hist ro hro)
  · intro hro w cid now
    have hne2 : (("CONFIRMED" : String) == "DISCONNECTED") = false := rfl
    cases hget : w.calls[cid]? with
    | none => simp [onCallState, hget]
    | some c0 =>
      cases hcs : c0.call_start_time with
      | some t => simp [onCallState, hget, hcs, hne2]
      | none =>
        simp [onCallState, hget, hcs, hne2,
          start_recording_fail _ cfgRecDir ts _ ro hro]

/-- Witness for `c8_recording_failure_contained` at a failing capture
start. -/
theorem c8_recording_failure_contained_witness :
    start_recording busyCall cfgRecDir "t" busyWorld.history RecOutcome.startFail =
      busyWorld.history :=
  (c8_recording_failure_contained busyCall "t" busyWorld.history
    RecOutcome.startFail).1 (by decide)

/-- Claim C9: `get_call_status` is total.  With no account, or no current
call (in particular right after the "DISCONNECTED" transition cleared the
slot — last conjunct), it returns the inactive answer; with a current call
it returns the active answer carrying state, remote URI, duration (0 when
the engine reports none), hold flag and mute flag. -/
theorem c9_status_total (w : World) :
    (w.hasAccount = false → get_call_status w = CallStatus.inactive)
    ∧ (w.current_call = none → get_call_status w = CallStatus.inactive)
    ∧ (∀ cid c, w.hasAccount = true → w.current_call = some cid →
        w.calls[cid]? = some c →
        get_call_status w =
          CallStatus.active c.pjState c.remoteUri
            (match c.connectDuration with | some d => d | none => 0)
            c.on_hold c.is_muted)
    ∧ (∀ cid c now ar ts ro, w.calls[cid]? = some c →
        get_call_status (onCallState w cid "DISCONNECTED" now ar cfgRecDir ts ro) =
          CallStatus.inactive) := by
  refine ⟨?_, ?_, ?_, ?_⟩
  · intro hacc
    simp [get_call_status, hacc]
  · intro hcc
    cases hacc : w.hasAccount <;> simp [get_call_status, hacc, hcc]
  · intro cid c hacc hcc hget
    simp [get_call_status, hacc, hcc, hget]
  · intro cid c now ar ts ro hget
    cases hacc : w.hasAccount <;> simp [onCallState, hget, get_call_status, hacc]

/-- Witness for `c9_status_total` at the concrete busy client. -/
theorem c9_status_total_witness :
    get_call_status busyWorld =
      CallStatus.active "CONFIRMED" "sip:1001@example.com" 4 false false :=
  (c9_status_total busyWorld).2.2.1 0 busyCall rfl rfl rfl

/-- Claim C10: the backend variant's `transcribe_recording` returns `None`
for every path, whether the file exists or not; consequently running the
enrichment stage structure with it as stage 1 leaves any record exactly as
it was — no transcript, sentiment or summary can ever be acquired through
it. -/
theorem c10_transcribe_always_none :
    (∀ fileExists, transcribe_recording fileExists = none)
    ∧ (∀ fileExists sent sum r,
        process_stages (transcribe_recording fileExists) sent sum r = r) := by
  constructor
  · intro e
    cases e <;> rfl
  · intro e sent sum r
    cases e <;> rfl

end SIPCalling
